import Mathlib

/-!
Formal model of the rsa-app roadside-assistance platform.

The repository holds two independently runnable variants:
a Simple Service (`app/*`, email + password login, direct request lifecycle)
and a Marketplace Service (`backend/*`, phone + OTP login, offers and jobs).
Each variant is embedded shallowly: the relational store becomes a record of
lists of rows, each route handler becomes a function from the store and the
handler's inputs to either an `HErr` (an `HTTPException` with status and
detail) or the updated store and the handler's return value.  Columns that
none of the embedded handlers ever read or write (GPS floats, money floats,
timestamps managed by the ORM) are omitted from the row records; everything a
handler touches is modelled.
-/

/-- HTTP error as raised by FastAPI `HTTPException`: status code and detail. -/
structure HErr where
  status : Nat
  detail : String
deriving DecidableEq

/-- User roles, identical in both variants (`app/models/user.py` and
`backend/models/user.py`): customer, provider, admin. -/
inductive UserRole where
  | customer
  | provider
  | admin
deriving DecidableEq

/-- String value of a role, as stored by the `str`-mixin Python enum. -/
def UserRole.val : UserRole → String
  | .customer => "customer"
  | .provider => "provider"
  | .admin => "admin"

/-- Test whether an `Except` result is a success. -/
def isOkE {ε α : Type} : Except ε α → Bool
  | .ok _ => true
  | .error _ => false

/-- Model of Python `int(s)` on a string: strips surrounding whitespace,
accepts an optional sign followed by one or more digits, otherwise fails
(raises `ValueError` in Python, `none` here). -/
def pyInt? (s : String) : Option Int :=
  let t := ((s.data.dropWhile (fun c => c.isWhitespace)).reverse.dropWhile
    (fun c => c.isWhitespace)).reverse
  match t with
  | [] => none
  | c :: rest =>
    let sign : Int := if c = '-' then -1 else 1
    let ds : List Char := if c = '-' ∨ c = '+' then rest else c :: rest
    if ds ≠ [] ∧ ds.all (fun d => d.isDigit) then
      some (sign * Int.ofNat (ds.foldl (fun n d => n * 10 + (d.toNat - 48)) 0))
    else none

/-- Python slice `s[-4:]`: the last four characters of a string (the whole
string when it is shorter than four characters). -/
def pyLast4 (s : String) : String :=
  ⟨s.data.drop (s.data.length - 4)⟩

namespace Marketplace

/-- Offer status enum (`backend/models/offer.py`). -/
inductive OfferStatus where
  | pending
  | accepted
  | rejected
deriving DecidableEq

/-- String value of an offer status. -/
def OfferStatus.val : OfferStatus → String
  | .pending => "pending"
  | .accepted => "accepted"
  | .rejected => "rejected"

/-- Service-request status enum (`backend/models/service_request.py`). -/
inductive RequestStatus where
  | pendingOffers
  | offerSelected
  | cancelled
  | expired
deriving DecidableEq

/-- String value of a request status. -/
def RequestStatus.val : RequestStatus → String
  | .pendingOffers => "pending_offers"
  | .offerSelected => "offer_selected"
  | .cancelled => "cancelled"
  | .expired => "expired"

/-- Job status enum (`backend/models/job.py`). -/
inductive JobStatus where
  | assigned
  | onTheWay
  | arrived
  | inProgress
  | completed
  | cancelled
deriving DecidableEq

/-- Marketplace user row (`backend/models/user.py`): id, optional name,
phone (the authentication key), role.  No password is stored. -/
structure User where
  id : Nat
  name : Option String
  phone : String
  role : UserRole
deriving DecidableEq

/-- Marketplace service-request row (`backend/models/service_request.py`),
restricted to the columns the embedded handlers read or write:
primary key, owning customer, status. -/
structure ServiceRequest where
  id : Nat
  customerId : Nat
  status : RequestStatus
deriving DecidableEq

/-- Offer row (`backend/models/offer.py`): primary key, parent request,
submitting provider, status.  Price and ETA columns are carried nowhere by
the embedded handlers and are omitted. -/
structure Offer where
  id : Nat
  serviceRequestId : Nat
  providerId : Nat
  status : OfferStatus
deriving DecidableEq

/-- Job row (`backend/models/job.py`): primary key, parent request (unique),
accepted offer (unique), status. -/
structure Job where
  id : Nat
  serviceRequestId : Nat
  offerId : Nat
  status : JobStatus
deriving DecidableEq

/-- The Marketplace relational store: one list per table, plus the next
auto-assigned primary key for the tables the embedded handlers insert into. -/
structure Store where
  users : List User
  requests : List ServiceRequest
  offers : List Offer
  jobs : List Job
  nextUserId : Nat
  nextJobId : Nat
deriving DecidableEq

/-- First offer with the given primary key (`db.query(Offer).filter(Offer.id
== offer_id).first()`). -/
def findOffer (s : Store) (offerId : Nat) : Option Offer :=
  s.offers.find? (fun o => o.id == offerId)

/-- First service request with the given primary key (the `offer.service_request`
relationship resolves the non-null foreign key). -/
def findRequest (s : Store) (requestId : Nat) : Option ServiceRequest :=
  s.requests.find? (fun r => r.id == requestId)

/-- First user with the given phone (`db.query(User).filter(User.phone ==
input_data.phone).first()`). -/
def findUserByPhone (s : Store) (phone : String) : Option User :=
  s.users.find? (fun u => u.phone == phone)

/-- First user with the given primary key (`db.query(User).filter(User.id ==
int(user_id)).first()`; the Python `int` may exceed table ids, so the
comparison is on `Int`). -/
def findUserById (s : Store) (userId : Int) : Option User :=
  s.users.find? (fun u => (u.id : Int) == userId)

/-- Row update performed by `accept_offer` on the offers table: the chosen
offer becomes accepted; every other pending offer of the same request becomes
rejected; every other row is untouched. -/
def offerAcceptRow (offerId requestId : Nat) (p : Offer) : Offer :=
  if p.id = offerId then { p with status := OfferStatus.accepted }
  else if p.serviceRequestId = requestId ∧ p.status = OfferStatus.pending then
    { p with status := OfferStatus.rejected }
  else p

/-- Row update performed by `accept_offer` on the requests table: the parent
request moves to `offer_selected`; every other row is untouched. -/
def requestSelectRow (requestId : Nat) (q : ServiceRequest) : ServiceRequest :=
  if q.id = requestId then { q with status := RequestStatus.offerSelected } else q

/-- Embedding of `accept_offer` (`backend/routers/customer.py`, lines 154-252).
Looks up the offer (404 when missing), resolves its parent request through the
non-null foreign key, checks ownership (403), that the offer is pending (400)
and that the request is `pending_offers` (400); on success marks the chosen
offer accepted, marks every other pending offer of the same request rejected,
sets the request status to `offer_selected`, and inserts exactly one job with
status `assigned` linking the request and the offer.  An error result carries
no store: the handler raises before its single commit, so nothing is written.
The 500 branch models the crash a dangling foreign key would cause; it is
unreachable when the store has foreign-key integrity. -/
def accept_offer (s : Store) (customerId offerId : Nat) :
    Except HErr (Store × Job) :=
  match findOffer s offerId with
  | none => .error ⟨404, "Offer not found"⟩
  | some offer =>
    match findRequest s offer.serviceRequestId with
    | none => .error ⟨500, "Internal Server Error"⟩
    | some serviceRequest =>
      if serviceRequest.customerId ≠ customerId then
        .error ⟨403, "Access denied. This request does not belong to you."⟩
      else if offer.status ≠ OfferStatus.pending then
        .error ⟨400, "Cannot accept offer with status \x27" ++ offer.status.val
          ++ "\x27. Offer must be pending."⟩
      else if serviceRequest.status ≠ RequestStatus.pendingOffers then
        .error ⟨400, "Cannot accept offer. Request status is \x27"
          ++ serviceRequest.status.val ++ "\x27. Must be \x27pending_offers\x27."⟩
      else
        let job : Job := ⟨s.nextJobId, serviceRequest.id, offer.id, JobStatus.assigned⟩
        .ok ({ s with
                offers := s.offers.map (offerAcceptRow offerId serviceRequest.id)
                requests := s.requests.map (requestSelectRow serviceRequest.id)
                jobs := s.jobs ++ [job]
                nextJobId := s.nextJobId + 1 }, job)

/-- The fixed demo one-time code (`backend/config.py`, `DEMO_OTP = "1234"`). -/
def DEMO_OTP : String := "1234"

/-- Claims the Marketplace embeds when issuing a token (`verify_otp` builds
`token_data` with subject, role and phone before signing; the signing itself
is the external JWT library). -/
structure TokenClaims where
  sub : String
  role : String
  phone : String
deriving DecidableEq

/-- Declared shape of the `verify-otp` request body
(`VerifyOTPInput`, `backend/routers/auth.py` lines 36-41): the phone field
only carries `min_length=1`; the OTP is a plain required string and the name
is optional. -/
def VerifyOTPInput.validates (phone : String) : Bool :=
  phone.length ≥ 1

/-- Declared phone constraint of the Marketplace `UserBase` schema
(`backend/schemas/user.py` lines 13-17): `min_length=10`.  `UserRead`
inherits it, so it is enforced again whenever a handler serializes a user
row through `UserRead.model_validate`. -/
def UserBase.validatesPhone (phone : String) : Bool :=
  phone.length ≥ 10

/-- Outcome of the verify-otp operation.  `httpError` is an `HTTPException`
raised before the handler's commit, so it carries no store; `validationError`
is the uncaught pydantic `ValidationError` escaping the handler while
serializing the response (an HTTP 500), raised after any commit already
performed, so it carries the store as committed. -/
inductive VerifyOtpResult where
  | ok (s : Store) (tok : TokenClaims) (u : User)
  | httpError (e : HErr)
  | validationError (s : Store) (msg : String)
deriving DecidableEq

/-- Whether a verify-otp outcome is the successful token response. -/
def VerifyOtpResult.isOk : VerifyOtpResult → Bool
  | .ok _ _ _ => true
  | _ => false

/-- The store a verify-otp outcome leaves behind: present on success and on
the post-commit validation error, absent when the handler raised before its
commit. -/
def VerifyOtpResult.store : VerifyOtpResult → Option Store
  | .ok s _ _ => some s
  | .httpError _ => none
  | .validationError s _ => some s

/-- Name given to a user freshly created by `verify_otp`
(`backend/routers/auth.py` lines 155-158): the caller's name when supplied
and non-empty (the empty string is falsy in Python), else the f-string
`User {phone[-4:]}` when the phone has at least four characters, else
`User`. -/
def userNameFor (phone : String) (name : Option String) : String :=
  let defaultName := if phone.length ≥ 4 then "User " ++ pyLast4 phone else "User"
  match name with
  | some n => if n = "" then defaultName else n
  | none => defaultName

/-- Tail of `verify_otp` (`backend/routers/auth.py` lines 170-185): builds
the token claims and serializes the user through `UserRead.model_validate`
(line 179).  `UserRead` inherits the ten-character phone minimum from
`UserBase`, so for a user whose phone is shorter the serialization raises an
uncaught `ValidationError` instead of returning the token response. -/
def issueTokenResponse (s : Store) (u : User) : VerifyOtpResult :=
  if UserBase.validatesPhone u.phone then
    .ok s ⟨toString u.id, u.role.val, u.phone⟩ u
  else
    .validationError s "String should have at least 10 characters"

/-- Embedding of `verify_otp` (`backend/routers/auth.py`, lines 97-185).
Rejects with 400 when the supplied code differs from the fixed demo code;
otherwise looks the user up by phone and, when none exists, inserts and
commits one with role customer and the name of `userNameFor`; finally issues
the token and serializes the user (`issueTokenResponse`), which raises an
uncaught `ValidationError` when the user's phone is shorter than ten
characters — with any newly created user already committed. -/
def verify_otp (s : Store) (phone otp : String) (name : Option String) :
    VerifyOtpResult :=
  if otp ≠ DEMO_OTP then
    .httpError ⟨400, "Invalid OTP"⟩
  else
    match findUserByPhone s phone with
    | some u => issueTokenResponse s u
    | none =>
      let u : User := ⟨s.nextUserId, some (userNameFor phone name), phone,
        UserRole.customer⟩
      issueTokenResponse
        { s with users := s.users ++ [u], nextUserId := s.nextUserId + 1 } u

/-- The `verify-otp` operation as exposed: the framework validates the body
against `VerifyOTPInput` before the handler runs (422 on violation), then the
handler executes. -/
def verify_otp_endpoint (s : Store) (phone otp : String) (name : Option String) :
    VerifyOtpResult :=
  if ¬ (VerifyOTPInput.validates phone = true) then
    .httpError ⟨422, "String should have at least 1 character"⟩
  else
    verify_otp s phone otp name

/-- Decoded bearer-token payload as far as identity resolution reads it: the
optional subject claim.  Signature and expiry checking happen in the external
JWT library before this point. -/
structure MPayload where
  sub : Option String
deriving DecidableEq

/-- Outcome of Marketplace identity resolution: a resolved user, an
`HTTPException`, or an uncaught Python exception escaping the handler. -/
inductive AuthOutcome where
  | ok (u : User)
  | httpError (e : HErr)
  | valueError (msg : String)
deriving DecidableEq

/-- Whether an identity-resolution outcome is an Unauthorized (401) response. -/
def AuthOutcome.isUnauthorized : AuthOutcome → Bool
  | .httpError e => e.status == 401
  | _ => false

/-- Embedding of the Marketplace `get_current_user` (`backend/deps.py`,
lines 21-66), starting from the decoded payload: a missing subject claim
fails 401 with the generic detail; the subject is then passed to `int(...)`
with no surrounding try/except, so a non-integer subject raises an uncaught
`ValueError`; an integer subject naming no user fails 401 `User not found`. -/
def get_current_user (s : Store) (payload : MPayload) : AuthOutcome :=
  match payload.sub with
  | none => .httpError ⟨401, "Could not validate credentials"⟩
  | some subStr =>
    match pyInt? subStr with
    | none => .valueError ("invalid literal for int() with base 10: " ++ subStr)
    | some userId =>
      match findUserById s userId with
      | none => .httpError ⟨401, "User not found"⟩
      | some u => .ok u

/-- Two-argument arctangent over the reals, the `math.atan2` the haversine
formula invokes: the angle of the point (x, y), taken in (-pi, pi]. -/
noncomputable def atan2 (y x : ℝ) : ℝ :=
  if 0 < x then Real.arctan (y / x)
  else if x < 0 ∧ 0 ≤ y then Real.arctan (y / x) + Real.pi
  else if x < 0 then Real.arctan (y / x) - Real.pi
  else if 0 < y then Real.pi / 2
  else if y < 0 then -(Real.pi / 2)
  else 0

/-- Modelled from the spec: the repository imports `haversine_distance` from
`backend/utils/location.py`, a file absent from the source snapshot (only its
importers `backend/utils/__init__.py` and `backend/routers/provider.py` are
present).  This is the intermediate value `a` of the spec's haversine formula
(section 4.5): `a = sin²(Δφ/2) + cos(φ1)·cos(φ2)·sin²(Δλ/2)`, with latitudes
and longitude difference converted from degrees to radians. -/
noncomputable def haversine_aterm (lat1 lon1 lat2 lon2 : ℝ) : ℝ :=
  Real.sin ((lat2 - lat1) * Real.pi / 180 / 2) ^ 2 +
    Real.cos (lat1 * Real.pi / 180) * Real.cos (lat2 * Real.pi / 180) *
      Real.sin ((lon2 - lon1) * Real.pi / 180 / 2) ^ 2

/-- Modelled from the spec: great-circle distance in kilometers between two
latitude/longitude pairs by the haversine formula of section 4.5,
`c = 2·atan2(√a, √(1−a))` and `distance = R·c` with `R = 6371` km.  The
function is pure by construction: a mathematical function of its four
arguments. -/
noncomputable def haversine_distance (lat1 lon1 lat2 lon2 : ℝ) : ℝ :=
  6371 * (2 * atan2 (Real.sqrt (haversine_aterm lat1 lon1 lat2 lon2))
    (Real.sqrt (1 - haversine_aterm lat1 lon1 lat2 lon2)))

/-- The empty Marketplace deployment: schema created, no rows. -/
def emptyStore : Store := ⟨[], [], [], [], 1, 1⟩

/-- Fixture: a customer (id 1), a provider (id 2), one request of customer 1
still collecting offers, and two pending offers on it (ids 100 and 101). -/
def c1Store : Store :=
  ⟨[⟨1, some "Cara", "+15550000001", UserRole.customer⟩,
    ⟨2, some "Pat", "+15550000002", UserRole.provider⟩],
   [⟨10, 1, RequestStatus.pendingOffers⟩],
   [⟨100, 10, 2, OfferStatus.pending⟩, ⟨101, 10, 2, OfferStatus.pending⟩],
   [], 3, 1⟩

end Marketplace

namespace SimpleApp

/-- Simple Service request status enum (`app/models/service_request.py`). -/
inductive RequestStatus where
  | pending
  | accepted
  | onTheWay
  | inProgress
  | completed
  | cancelled
deriving DecidableEq

/-- String `.value` of a request status. -/
def RequestStatus.val : RequestStatus → String
  | .pending => "pending"
  | .accepted => "accepted"
  | .onTheWay => "on_the_way"
  | .inProgress => "in_progress"
  | .completed => "completed"
  | .cancelled => "cancelled"

/-- Simple Service user row (`app/models/user.py`): id, full name, email
(unique login key), optional phone, role, password hash. -/
structure User where
  id : Nat
  fullName : String
  email : String
  phone : Option String
  role : UserRole
  passwordHash : String
deriving DecidableEq

/-- Simple Service service-request row (`app/models/service_request.py`):
id, owning customer, provider (absent until accepted), the request payload
columns, and status.  The GPS float columns and the ORM-managed timestamps
are omitted: no embedded handler reads them and only creation copies them. -/
structure ServiceRequest where
  id : Nat
  customerId : Nat
  providerId : Option Nat
  description : String
  vehicleMake : String
  vehicleModel : String
  vehicleYear : Option String
  locationText : String
  status : RequestStatus
deriving DecidableEq

/-- The Simple Service relational store. -/
structure Store where
  users : List User
  requests : List ServiceRequest
  nextUserId : Nat
  nextRequestId : Nat
deriving DecidableEq

/-- The empty deployment: schema created, no rows yet. -/
def initStore : Store := ⟨[], [], 1, 1⟩

/-- First request with the given primary key. -/
def findRequest (s : Store) (requestId : Nat) : Option ServiceRequest :=
  s.requests.find? (fun r => r.id == requestId)

/-- First user with the given email (`db.query(User).filter(User.email ==
...).first()`). -/
def findUserByEmail (s : Store) (email : String) : Option User :=
  s.users.find? (fun u => u.email == email)

/-- First user with the given primary key. -/
def findUserById (s : Store) (userId : Int) : Option User :=
  s.users.find? (fun u => (u.id : Int) == userId)

/-- First user with role admin (`db.query(User).filter(User.role ==
UserRole.ADMIN).first()`). -/
def findAdmin (s : Store) : Option User :=
  s.users.find? (fun u => u.role == UserRole.admin)

/-- Payload of a service-request creation body (`ServiceRequestCreate`),
restricted to the modelled columns. -/
structure RequestInput where
  description : String
  vehicleMake : String
  vehicleModel : String
  vehicleYear : Option String
  locationText : String
deriving DecidableEq

/-- Embedding of `create_service_request` (`app/routers/requests.py`, lines
48-104): builds a new request owned by the calling customer with status
forced to pending and no provider, and inserts it. -/
def create_service_request (s : Store) (customerId : Nat) (inp : RequestInput) :
    Store × ServiceRequest :=
  let r : ServiceRequest :=
    ⟨s.nextRequestId, customerId, none, inp.description, inp.vehicleMake,
      inp.vehicleModel, inp.vehicleYear, inp.locationText, RequestStatus.pending⟩
  ({ s with requests := s.requests ++ [r], nextRequestId := s.nextRequestId + 1 }, r)

/-- Row update performed by `accept_request`: the matched request gains the
calling provider and status accepted; every other row is untouched. -/
def acceptRow (requestId providerId : Nat) (q : ServiceRequest) : ServiceRequest :=
  if q.id = requestId then
    { q with providerId := some providerId, status := RequestStatus.accepted }
  else q

/-- Row update performed by `update_request_status`: the matched request's
status is overwritten; every other row is untouched. -/
def statusRow (requestId : Nat) (newStatus : RequestStatus) (q : ServiceRequest) :
    ServiceRequest :=
  if q.id = requestId then { q with status := newStatus } else q

/-- Embedding of `accept_request` (`app/routers/provider.py`, lines 133-192):
404 when the request is missing, 400 when its status is not pending, 400 when
a provider is already assigned; otherwise assigns the calling provider and
sets the status to accepted, leaving every other column of the row and every
other row untouched. -/
def accept_request (s : Store) (requestId providerId : Nat) :
    Except HErr (Store × ServiceRequest) :=
  match findRequest s requestId with
  | none => .error ⟨404, "Request with ID " ++ toString requestId ++ " not found"⟩
  | some r =>
    if r.status ≠ RequestStatus.pending then
      .error ⟨400, "This request is no longer available. Current status: " ++ r.status.val⟩
    else if r.providerId.isSome then
      .error ⟨400, "This request has already been accepted by another provider"⟩
    else
      let r2 := { r with providerId := some providerId, status := RequestStatus.accepted }
      .ok ({ s with requests := s.requests.map (acceptRow requestId providerId) }, r2)

/-- Embedding of `update_request_status` (`app/routers/provider.py`, lines
210-283): 404 when missing, 403 when the caller is not the assigned provider
(in particular when no provider is assigned), 400 when the new status is
pending; otherwise overwrites the status unconditionally. -/
def update_request_status (s : Store) (requestId providerId : Nat)
    (newStatus : RequestStatus) : Except HErr (Store × ServiceRequest) :=
  match findRequest s requestId with
  | none => .error ⟨404, "Request with ID " ++ toString requestId ++ " not found"⟩
  | some r =>
    if r.providerId ≠ some providerId then
      .error ⟨403, "You can only update status for your own accepted requests"⟩
    else if newStatus = RequestStatus.pending then
      .error ⟨400, "Cannot change status back to PENDING"⟩
    else
      .ok ({ s with requests := s.requests.map (statusRow requestId newStatus) },
            { r with status := newStatus })

/-- Claims the Simple Service embeds when issuing a token
(`create_token_for_user`: subject and role; signing is external). -/
structure STokenClaims where
  sub : String
  role : String
deriving DecidableEq

/-- Embedding of `login` (`app/routers/auth.py`, lines 155-224).  The
password-verification primitive is the external bcrypt library and is taken
as a parameter.  A missing user and a mismatched password both produce the
identical 401 response; on success a token is issued for the user. -/
def login (verify : String → String → Bool) (s : Store) (email password : String) :
    Except HErr (STokenClaims × User) :=
  match findUserByEmail s email with
  | none => .error ⟨401, "Invalid email or password"⟩
  | some u =>
    if ¬ verify password u.passwordHash then
      .error ⟨401, "Invalid email or password"⟩
    else
      .ok (⟨toString u.id, u.role.val⟩, u)

/-- Embedding of `register` (`app/routers/auth.py`, lines 64-140).  The route
declares no authentication dependency; the role comes verbatim from the
request body (`UserCreate.role`, any of the three values, defaulting to
customer at the schema level).  400 when the email is taken; otherwise the
user is created with the hashed password and a token is issued. -/
def register (hash : String → String) (s : Store) (fullName email : String)
    (phone : Option String) (password : String) (role : UserRole) :
    Except HErr (Store × STokenClaims × User) :=
  if (s.users.find? (fun u => u.email == email)).isSome then
    .error ⟨400, "Email already registered. Please use a different email or login."⟩
  else
    let u : User := ⟨s.nextUserId, fullName, email, phone, role, hash password⟩
    .ok ({ s with users := s.users ++ [u], nextUserId := s.nextUserId + 1 },
          ⟨toString u.id, role.val⟩, u)

/-- Embedding of `setup_admin` (`app/routers/admin.py`, lines 317-361): no
authentication; 400 when any admin-role user exists; otherwise creates the
fixed admin account `admin@rsa.com` (password `admin123` through the external
hash) and returns it. -/
def setup_admin (hash : String → String) (s : Store) : Except HErr (Store × User) :=
  if (findAdmin s).isSome then
    .error ⟨400, "Admin user already exists. Use normal login."⟩
  else
    let u : User := ⟨s.nextUserId, "System Administrator", "admin@rsa.com", none,
      UserRole.admin, hash "admin123"⟩
    .ok ({ s with users := s.users ++ [u], nextUserId := s.nextUserId + 1 }, u)

/-- HTTP status of a successful `POST /admin/setup` response: the route
decorator passes no `status_code`, so the framework default 200 applies
(contrast `register`, which passes 201 explicitly). -/
def setup_admin_success_status : Nat := 200

/-- HTTP status the route documents for its success case: the decorator's
`responses` mapping describes 201 as `Admin created`, and the spec's endpoint
table lists the bootstrap as 201. -/
def setup_admin_documented_status : Nat := 201

/-- Outcome of Simple Service identity resolution. -/
inductive SAuthOutcome where
  | ok (u : User)
  | httpError (e : HErr)
deriving DecidableEq

/-- Embedding of the Simple Service `get_current_user` (`app/dependencies.py`,
lines 50-126), starting from the result of `decode_access_token` (the
external JWT decode, `none` on any invalid token): 401 on an undecodable
token, 401 `Token missing user ID` when the subject claim is absent, 401
`Invalid user ID in token` when `int(user_id_str)` raises (caught here by an
explicit try/except), 401 `User not found` when no user carries the id. -/
def get_current_user (s : Store) (payloadOpt : Option Marketplace.MPayload) :
    SAuthOutcome :=
  match payloadOpt with
  | none => .httpError ⟨401, "Invalid or expired token"⟩
  | some payload =>
    match payload.sub with
    | none => .httpError ⟨401, "Token missing user ID"⟩
    | some subStr =>
      match pyInt? subStr with
      | none => .httpError ⟨401, "Invalid user ID in token"⟩
      | some userId =>
        match findUserById s userId with
        | none => .httpError ⟨401, "User not found"⟩
        | some u => .ok u

/-- One observable mutation step of the Simple Service's request table: a
customer creates a request, a provider accepts one, or a provider updates a
status.  These are the only exposed operations that write the
`service_requests` table (the admin router reads it and mutates only users). -/
inductive Step : Store → Store → Prop where
  | create (s : Store) (customerId : Nat) (inp : RequestInput) :
      Step s (create_service_request s customerId inp).1
  | accept (s s2 : Store) (requestId providerId : Nat) (r : ServiceRequest)
      (h : accept_request s requestId providerId = .ok (s2, r)) : Step s s2
  | update (s s2 : Store) (requestId providerId : Nat) (newStatus : RequestStatus)
      (r : ServiceRequest)
      (h : update_request_status s requestId providerId newStatus = .ok (s2, r)) :
      Step s s2

/-- State reachable from the fresh deployment through exposed operations. -/
def Reachable (s : Store) : Prop :=
  Relation.ReflTransGen Step initStore s

/-- Invariant: a request whose status is pending carries no provider. -/
def PendingUnassigned (s : Store) : Prop :=
  ∀ r ∈ s.requests, r.status = RequestStatus.pending → r.providerId = none

/-- A deterministic stand-in for the external bcrypt hash, used only to
instantiate theorems at concrete inputs. -/
def demoHash : String → String :=
  fun p => "hash-" ++ p

/-- A verification stand-in matching `demoHash`: a password verifies exactly
against its own hash. -/
def demoVerify : String → String → Bool :=
  fun p h => ("hash-" ++ p) == h

/-- Fixture: one registered customer whose password is `secret123`. -/
def c5Store : Store :=
  ⟨[⟨1, "Alice", "alice@example.com", none, UserRole.customer, "hash-secret123"⟩],
   [], 2, 1⟩

/-- Fixture: the admin account the bootstrap endpoint creates on the empty
deployment under `demoHash`. -/
def c6Admin : User :=
  ⟨1, "System Administrator", "admin@rsa.com", none, UserRole.admin, "hash-admin123"⟩

/-- Fixture: the store after a successful bootstrap on the empty deployment. -/
def c6After : Store := ⟨[c6Admin], [], 2, 1⟩

/-- Fixture: a deployment that already has an admin account, under an email
different from the bootstrap one. -/
def c9Store : Store :=
  ⟨[⟨1, "Root", "root@example.com", none, UserRole.admin, "hash-rootpw"⟩], [], 2, 1⟩

/-- Fixture: one pending, unassigned request (id 1) owned by customer 7. -/
def c2Store : Store :=
  ⟨[], [⟨1, 7, none, "Flat tire on the highway", "Toyota", "Camry", some "2020",
    "Highway 101, Exit 25", RequestStatus.pending⟩], 1, 2⟩

end SimpleApp

/-- Finding in a mapped list commutes with the map when the transform does
not change the predicate's verdict on any element. -/
theorem find_map_pred_inv {α : Type} (l : List α) (f : α → α) (p : α → Bool)
    (h : ∀ a, p (f a) = p a) : (l.map f).find? p = (l.find? p).map f := by
  induction l with
  | nil => rfl
  | cons a t ih =>
    cases hpa : p a with
    | true => simp [List.find?, h a, hpa]
    | false => simp [List.find?, h a, hpa, ih]

namespace Marketplace

/-- The offers-table row update of `accept_offer` never changes a row's
primary key. -/
theorem offerAcceptRow_id (offerId requestId : Nat) (p : Offer) :
    (offerAcceptRow offerId requestId p).id = p.id := by
  unfold offerAcceptRow
  by_cases h1 : p.id = offerId
  · simp [h1]
  · by_cases h2 : p.serviceRequestId = requestId ∧ p.status = OfferStatus.pending
    · simp [h1, h2]
    · simp [h1, h2]

/-- The requests-table row update of `accept_offer` never changes a row's
primary key. -/
theorem requestSelectRow_id (requestId : Nat) (q : ServiceRequest) :
    (requestSelectRow requestId q).id = q.id := by
  unfold requestSelectRow
  by_cases h : q.id = requestId
  · simp [h]
  · simp [h]

/-- C1: accept-offer on the Marketplace.  When the offer exists, the parent
request belongs to the calling customer, the offer is pending and the request
is `pending_offers`, the operation in one step marks the chosen offer
accepted, marks every other pending offer of the request rejected and leaves
every other offer untouched, sets the request status to `offer_selected`
leaving other requests untouched, and appends exactly one job linking the
request and the offer with status `assigned`.  When a precondition fails it
returns 404 (offer missing), 403 (request not owned by the caller) or 400
(offer not pending, or request not `pending_offers`), and an error result
carries no updated store: nothing is committed. -/
theorem accept_offer_correct :
    (∀ (s : Store) (cid oid : Nat), findOffer s oid = none →
      accept_offer s cid oid = .error ⟨404, "Offer not found"⟩) ∧
    (∀ (s : Store) (cid oid : Nat) (o : Offer) (r : ServiceRequest),
      findOffer s oid = some o → findRequest s o.serviceRequestId = some r →
      r.customerId ≠ cid →
      accept_offer s cid oid =
        .error ⟨403, "Access denied. This request does not belong to you."⟩) ∧
    (∀ (s : Store) (cid oid : Nat) (o : Offer) (r : ServiceRequest),
      findOffer s oid = some o → findRequest s o.serviceRequestId = some r →
      r.customerId = cid → o.status ≠ OfferStatus.pending →
      accept_offer s cid oid =
        .error ⟨400, "Cannot accept offer with status \x27" ++ o.status.val
          ++ "\x27. Offer must be pending."⟩) ∧
    (∀ (s : Store) (cid oid : Nat) (o : Offer) (r : ServiceRequest),
      findOffer s oid = some o → findRequest s o.serviceRequestId = some r →
      r.customerId = cid → o.status = OfferStatus.pending →
      r.status ≠ RequestStatus.pendingOffers →
      accept_offer s cid oid =
        .error ⟨400, "Cannot accept offer. Request status is \x27" ++ r.status.val
          ++ "\x27. Must be \x27pending_offers\x27."⟩) ∧
    (∀ (s : Store) (cid oid : Nat) (o : Offer) (r : ServiceRequest),
      findOffer s oid = some o → findRequest s o.serviceRequestId = some r →
      r.customerId = cid → o.status = OfferStatus.pending →
      r.status = RequestStatus.pendingOffers →
      ∃ s2 job, accept_offer s cid oid = .ok (s2, job) ∧
        job.serviceRequestId = r.id ∧ job.offerId = o.id ∧
        job.status = JobStatus.assigned ∧
        s2.jobs = s.jobs ++ [job] ∧
        findOffer s2 oid = some { o with status := OfferStatus.accepted } ∧
        findRequest s2 r.id = some { r with status := RequestStatus.offerSelected } ∧
        (∀ (i : Nat) (p : Offer), s.offers[i]? = some p → p.id ≠ oid →
          p.serviceRequestId = r.id → p.status = OfferStatus.pending →
          s2.offers[i]? = some { p with status := OfferStatus.rejected }) ∧
        (∀ (i : Nat) (p : Offer), s.offers[i]? = some p → p.id ≠ oid →
          (p.serviceRequestId ≠ r.id ∨ p.status ≠ OfferStatus.pending) →
          s2.offers[i]? = some p) ∧
        (∀ (i : Nat) (q : ServiceRequest), s.requests[i]? = some q → q.id ≠ r.id →
          s2.requests[i]? = some q) ∧
        s2.users = s.users) := by
  refine ⟨?_, ?_, ?_, ?_, ?_⟩
  · intro s cid oid h
    simp [accept_offer, h]
  · intro s cid oid o r ho hr hne
    simp [accept_offer, ho, hr, hne]
  · intro s cid oid o r ho hr hc hos
    simp [accept_offer, ho, hr, hc, hos]
  · intro s cid oid o r ho hr hc hos hrs
    simp [accept_offer, ho, hr, hc, hos, hrs]
  · intro s cid oid o r ho hr hc hos hrs
    have ho2 : o.id = oid := by
      have := List.find?_some ho
      simpa using this
    have hr2 : r.id = o.serviceRequestId := by
      have := List.find?_some hr
      simpa using this
    have hrun : accept_offer s cid oid =
        .ok ({ s with
                offers := s.offers.map (offerAcceptRow oid r.id)
                requests := s.requests.map (requestSelectRow r.id)
                jobs := s.jobs ++ [⟨s.nextJobId, r.id, o.id, JobStatus.assigned⟩]
                nextJobId := s.nextJobId + 1 },
              ⟨s.nextJobId, r.id, o.id, JobStatus.assigned⟩) := by
      simp [accept_offer, ho, hr, hc, hos, hrs]
    refine ⟨_, _, hrun, rfl, rfl, rfl, rfl, ?_, ?_, ?_, ?_, ?_, rfl⟩
    · show (s.offers.map (offerAcceptRow oid r.id)).find? (fun p => p.id == oid) = _
      rw [find_map_pred_inv _ _ _ (fun a => by rw [offerAcceptRow_id])]
      have : s.offers.find? (fun p => p.id == oid) = some o := ho
      rw [this]
      simp [offerAcceptRow, ho2]
    · show (s.requests.map (requestSelectRow r.id)).find? (fun q => q.id == r.id) = _
      rw [find_map_pred_inv _ _ _ (fun a => by rw [requestSelectRow_id])]
      have : s.requests.find? (fun q => q.id == r.id) = some r := by
        rw [← hr2] at hr
        exact hr
      rw [this]
      simp [requestSelectRow]
    · intro i p hip hpne hpsr hpst
      simp [List.getElem?_map, hip, offerAcceptRow, hpne, hpsr, hpst]
    · intro i p hip hpne hdisj
      rcases hdisj with h | h
      · simp [List.getElem?_map, hip, offerAcceptRow, hpne, h]
      · simp [List.getElem?_map, hip, offerAcceptRow, hpne, h]
    · intro i q hiq hqne
      simp [List.getElem?_map, hiq, requestSelectRow, hqne]

/-- Witness for C1: on the concrete fixture the 404 branch fires for a
missing offer id, and accepting the pending offer 100 succeeds. -/
theorem accept_offer_correct_witness :
    accept_offer c1Store 1 999 = .error ⟨404, "Offer not found"⟩ ∧
    isOkE (accept_offer c1Store 1 100) = true := by
  constructor
  · exact accept_offer_correct.1 c1Store 1 999 (by decide)
  · obtain ⟨s2, job, hrun, -⟩ :=
      accept_offer_correct.2.2.2.2 c1Store 1 100
        ⟨100, 10, 2, OfferStatus.pending⟩ ⟨10, 1, RequestStatus.pendingOffers⟩
        (by decide) (by decide) rfl rfl rfl
    rw [hrun]
    rfl

end Marketplace

namespace SimpleApp

/-- The accept-request row update never changes a row's primary key. -/
theorem acceptRow_id (requestId providerId : Nat) (q : ServiceRequest) :
    (acceptRow requestId providerId q).id = q.id := by
  unfold acceptRow
  by_cases h : q.id = requestId
  · simp [h]
  · simp [h]

/-- The status-update row update never changes a row's primary key. -/
theorem statusRow_id (requestId : Nat) (newStatus : RequestStatus)
    (q : ServiceRequest) : (statusRow requestId newStatus q).id = q.id := by
  unfold statusRow
  by_cases h : q.id = requestId
  · simp [h]
  · simp [h]

/-- C2: provider accept on the Simple Service.  404 when no request carries
the id; 400 when the request's status is not pending; 400 when a provider is
already assigned; otherwise the calling provider is assigned and the status
becomes accepted, with no other field of the row and no other row or table
changed.  The operation errors exactly when one of the three conditions
holds. -/
theorem accept_request_correct :
    (∀ (s : Store) (rid pid : Nat), findRequest s rid = none →
      accept_request s rid pid =
        .error ⟨404, "Request with ID " ++ toString rid ++ " not found"⟩) ∧
    (∀ (s : Store) (rid pid : Nat) (r : ServiceRequest), findRequest s rid = some r →
      r.status ≠ RequestStatus.pending →
      accept_request s rid pid =
        .error ⟨400, "This request is no longer available. Current status: "
          ++ r.status.val⟩) ∧
    (∀ (s : Store) (rid pid : Nat) (r : ServiceRequest), findRequest s rid = some r →
      r.status = RequestStatus.pending → r.providerId ≠ none →
      accept_request s rid pid =
        .error ⟨400, "This request has already been accepted by another provider"⟩) ∧
    (∀ (s : Store) (rid pid : Nat) (r : ServiceRequest), findRequest s rid = some r →
      r.status = RequestStatus.pending → r.providerId = none →
      ∃ s2 r2, accept_request s rid pid = .ok (s2, r2) ∧
        r2 = { r with providerId := some pid, status := RequestStatus.accepted } ∧
        findRequest s2 rid = some r2 ∧
        (∀ (i : Nat) (q : ServiceRequest), s.requests[i]? = some q → q.id ≠ rid →
          s2.requests[i]? = some q) ∧
        (∀ (i : Nat) (q : ServiceRequest), s.requests[i]? = some q → q.id = rid →
          s2.requests[i]? =
            some { q with providerId := some pid, status := RequestStatus.accepted }) ∧
        s2.users = s.users ∧ s2.nextUserId = s.nextUserId ∧
        s2.nextRequestId = s.nextRequestId) ∧
    (∀ (s : Store) (rid pid : Nat),
      (∃ e, accept_request s rid pid = .error e) ↔
        (findRequest s rid = none ∨ ∃ r, findRequest s rid = some r ∧
          (r.status ≠ RequestStatus.pending ∨ r.providerId ≠ none))) := by
  have p1 : ∀ (s : Store) (rid pid : Nat), findRequest s rid = none →
      accept_request s rid pid =
        .error ⟨404, "Request with ID " ++ toString rid ++ " not found"⟩ := by
    intro s rid pid h
    simp [accept_request, h]
  have p2 : ∀ (s : Store) (rid pid : Nat) (r : ServiceRequest),
      findRequest s rid = some r → r.status ≠ RequestStatus.pending →
      accept_request s rid pid =
        .error ⟨400, "This request is no longer available. Current status: "
          ++ r.status.val⟩ := by
    intro s rid pid r hf hst
    simp [accept_request, hf, hst]
  have p3 : ∀ (s : Store) (rid pid : Nat) (r : ServiceRequest),
      findRequest s rid = some r → r.status = RequestStatus.pending →
      r.providerId ≠ none →
      accept_request s rid pid =
        .error ⟨400, "This request has already been accepted by another provider"⟩ := by
    intro s rid pid r hf hst hpr
    simp [accept_request, hf, hst, Option.isSome_iff_ne_none, hpr]
  refine ⟨p1, p2, p3, ?_, ?_⟩
  · intro s rid pid r hf hst hpr
    have hid : r.id = rid := by
      have := List.find?_some hf
      simpa using this
    have hrun : accept_request s rid pid =
        .ok ({ s with requests := s.requests.map (acceptRow rid pid) },
          { r with providerId := some pid, status := RequestStatus.accepted }) := by
      simp [accept_request, hf, hst, hpr]
    refine ⟨_, _, hrun, rfl, ?_, ?_, ?_, rfl, rfl, rfl⟩
    · show (s.requests.map (acceptRow rid pid)).find? (fun q => q.id == rid) = _
      rw [find_map_pred_inv _ _ _ (fun a => by rw [acceptRow_id])]
      have : s.requests.find? (fun q => q.id == rid) = some r := hf
      rw [this]
      simp [acceptRow, hid]
    · intro i q hiq hqne
      simp [List.getElem?_map, hiq, acceptRow, hqne]
    · intro i q hiq hqe
      simp [List.getElem?_map, hiq, acceptRow, hqe]
  · intro s rid pid
    constructor
    · rintro ⟨e, he⟩
      rcases hf : findRequest s rid with _ | r
      · exact Or.inl rfl
      · by_cases h1 : r.status = RequestStatus.pending
        · by_cases h2 : r.providerId = none
          · simp [accept_request, hf, h1, h2] at he
          · exact Or.inr ⟨r, rfl, Or.inr h2⟩
        · exact Or.inr ⟨r, rfl, Or.inl h1⟩
    · rintro (hf | ⟨r, hf, h1 | h1⟩)
      · exact ⟨_, p1 s rid pid hf⟩
      · exact ⟨_, p2 s rid pid r hf h1⟩
      · by_cases h2 : r.status = RequestStatus.pending
        · exact ⟨_, p3 s rid pid r hf h2 h1⟩
        · exact ⟨_, p2 s rid pid r hf h2⟩

/-- Witness for C2: on the concrete fixture the 404 branch fires for a
missing id, and accepting the pending, unassigned request 1 succeeds. -/
theorem accept_request_correct_witness :
    accept_request c2Store 99 9 = .error ⟨404, "Request with ID 99 not found"⟩ ∧
    isOkE (accept_request c2Store 1 9) = true := by
  constructor
  · exact accept_request_correct.1 c2Store 99 9 (by decide)
  · obtain ⟨s2, r2, hrun, -⟩ :=
      accept_request_correct.2.2.2.1 c2Store 1 9
        ⟨1, 7, none, "Flat tire on the highway", "Toyota", "Camry", some "2020",
          "Highway 101, Exit 25", RequestStatus.pending⟩
        (by decide) rfl rfl
    rw [hrun]
    rfl

/-- C10: in every store reachable through the exposed Simple Service
operations, a request with status pending carries no provider — creation
inserts pending and unassigned rows, accept assigns the provider and the
accepted status together, and the status update refuses pending — and
consequently the accept operation can never produce its second 400 error,
`already been accepted by another provider`. -/
theorem pending_implies_unassigned :
    (∀ s, Reachable s → PendingUnassigned s) ∧
    (∀ s, Reachable s → ∀ (rid pid : Nat),
      accept_request s rid pid ≠
        .error ⟨400, "This request has already been accepted by another provider"⟩) := by
  have inv : ∀ s, Reachable s → PendingUnassigned s := by
    intro s h
    unfold Reachable at h
    induction h with
    | refl =>
      intro r hr hp
      simp [initStore] at hr
    | @tail b c hsteps hstep ih =>
      cases hstep with
      | create cid inp =>
        intro r hr hp
        simp [create_service_request] at hr
        rcases hr with hr | hr
        · exact ih r hr hp
        · rw [hr]
      | accept s2v rid pid r0 h =>
        rcases hf : findRequest b rid with _ | r1
        · simp [accept_request, hf] at h
        · by_cases h1 : r1.status = RequestStatus.pending
          · by_cases h2 : r1.providerId = none
            · simp [accept_request, hf, h1, h2] at h
              obtain ⟨hs2, -⟩ := h
              intro r hr hp
              rw [← hs2] at hr
              simp at hr
              rcases hr with ⟨q, hq, hqr⟩
              by_cases hqid : q.id = rid
              · rw [← hqr] at hp
                simp [acceptRow, hqid] at hp
              · rw [← hqr] at hp ⊢
                simp [acceptRow, hqid] at hp ⊢
                exact ih q hq hp
            · simp [accept_request, hf, h1, h2, Option.isSome_iff_ne_none] at h
          · simp [accept_request, hf, h1] at h
      | update s2v rid pid ns r0 h =>
        rcases hf : findRequest b rid with _ | r1
        · simp [update_request_status, hf] at h
        · by_cases h1 : r1.providerId = some pid
          · by_cases h2 : ns = RequestStatus.pending
            · simp [update_request_status, hf, h1, h2] at h
            · simp [update_request_status, hf, h1, h2] at h
              obtain ⟨hs2, -⟩ := h
              intro r hr hp
              rw [← hs2] at hr
              simp at hr
              rcases hr with ⟨q, hq, hqr⟩
              by_cases hqid : q.id = rid
              · rw [← hqr] at hp
                simp [statusRow, hqid] at hp
                exact absurd hp h2
              · rw [← hqr] at hp ⊢
                simp [statusRow, hqid] at hp ⊢
                exact ih q hq hp
          · simp [update_request_status, hf, h1] at h
  refine ⟨inv, ?_⟩
  intro s h rid pid hcontra
  have hinv := inv s h
  rcases hf : findRequest s rid with _ | r
  · simp [accept_request, hf] at hcontra
  · by_cases h1 : r.status = RequestStatus.pending
    · by_cases h2 : r.providerId = none
      · simp [accept_request, hf, h1, h2] at hcontra
      · exact h2 (hinv r (List.mem_of_find?_eq_some hf) h1)
    · simp [accept_request, hf, h1] at hcontra
      cases hstatus : r.status
      all_goals first
        | exact h1 hstatus
        | (rw [hstatus] at hcontra; exact absurd hcontra (by decide))

/-- Witness for C10: the fresh deployment is reachable, so the second 400
branch of accept cannot fire on it. -/
theorem pending_implies_unassigned_witness :
    accept_request initStore 1 2 ≠
      .error ⟨400, "This request has already been accepted by another provider"⟩ :=
  pending_implies_unassigned.2 initStore Relation.ReflTransGen.refl 1 2

end SimpleApp

namespace Marketplace

/-- C3: the haversine distance (modelled from the spec, its source file being
absent from the snapshot) is pure by construction, returns 0 for identical
coordinate pairs — in particular at (0,0,0,0) — and is symmetric under
swapping the two points. -/
theorem haversine_distance_props :
    (∀ (lat lon : ℝ), haversine_distance lat lon lat lon = 0) ∧
    haversine_distance 0 0 0 0 = 0 ∧
    (∀ (lat1 lon1 lat2 lon2 : ℝ),
      haversine_distance lat1 lon1 lat2 lon2 =
        haversine_distance lat2 lon2 lat1 lon1) := by
  have aterm_self : ∀ (lat lon : ℝ), haversine_aterm lat lon lat lon = 0 := by
    intro lat lon
    simp [haversine_aterm]
  have hzero : ∀ (lat lon : ℝ), haversine_distance lat lon lat lon = 0 := by
    intro lat lon
    rw [haversine_distance, aterm_self]
    simp [atan2, Real.sqrt_one]
  have hsin : ∀ (x y : ℝ), Real.sin ((x - y) * Real.pi / 180 / 2) ^ 2 =
      Real.sin ((y - x) * Real.pi / 180 / 2) ^ 2 := by
    intro x y
    have e : (x - y) * Real.pi / 180 / 2 = -((y - x) * Real.pi / 180 / 2) := by
      ring
    rw [e, Real.sin_neg, neg_sq]
  have aterm_symm : ∀ (a b c d : ℝ),
      haversine_aterm c d a b = haversine_aterm a b c d := by
    intro a b c d
    unfold haversine_aterm
    rw [hsin a c, hsin b d]
    ring
  refine ⟨hzero, hzero 0 0, ?_⟩
  intro lat1 lon1 lat2 lon2
  rw [haversine_distance, haversine_distance, aterm_symm lat1 lon1 lat2 lon2]

end Marketplace

/-- Counterexample for C4: a bearer token whose subject claim is the
non-integer string `abc` does not fail as Unauthorized in the Marketplace —
`int(user_id)` has no surrounding try/except, so the handler escapes with an
uncaught `ValueError` (an HTTP 500), not a 401. -/
theorem nonint_subject_not_unauthorized_cex :
    pyInt? "abc" = none ∧
    Marketplace.get_current_user Marketplace.emptyStore ⟨some "abc"⟩ =
      .valueError ("invalid literal for int() with base 10: " ++ "abc") ∧
    (Marketplace.get_current_user Marketplace.emptyStore ⟨some "abc"⟩).isUnauthorized
      = false := by
  refine ⟨by decide, rfl, by decide⟩

/-- C4 (amended): identity resolution on a token with an unusable subject
claim.  An absent subject fails 401 in both variants (generic detail in the
Marketplace, `Token missing user ID` in the Simple Service); a non-integer
subject fails 401 `Invalid user ID in token` in the Simple Service but, in
the Marketplace, raises an uncaught `ValueError` instead of any 401. -/
theorem get_current_user_subject_handling :
    (∀ (s : Marketplace.Store),
      Marketplace.get_current_user s ⟨none⟩ =
        .httpError ⟨401, "Could not validate credentials"⟩) ∧
    (∀ (s : Marketplace.Store) (str : String), pyInt? str = none →
      Marketplace.get_current_user s ⟨some str⟩ =
        .valueError ("invalid literal for int() with base 10: " ++ str)) ∧
    (∀ (s : SimpleApp.Store),
      SimpleApp.get_current_user s none =
        .httpError ⟨401, "Invalid or expired token"⟩) ∧
    (∀ (s : SimpleApp.Store),
      SimpleApp.get_current_user s (some ⟨none⟩) =
        .httpError ⟨401, "Token missing user ID"⟩) ∧
    (∀ (s : SimpleApp.Store) (str : String), pyInt? str = none →
      SimpleApp.get_current_user s (some ⟨some str⟩) =
        .httpError ⟨401, "Invalid user ID in token"⟩) := by
  refine ⟨?_, ?_, ?_, ?_, ?_⟩
  · intro s
    rfl
  · intro s str h
    simp [Marketplace.get_current_user, h]
  · intro s
    rfl
  · intro s
    rfl
  · intro s str h
    simp [SimpleApp.get_current_user, h]

/-- Witness for C4 (amended): the non-integer subject `abc` produces a 401 in
the Simple Service and an uncaught `ValueError` in the Marketplace. -/
theorem get_current_user_subject_handling_witness :
    SimpleApp.get_current_user SimpleApp.initStore (some ⟨some "abc"⟩) =
      .httpError ⟨401, "Invalid user ID in token"⟩ ∧
    Marketplace.get_current_user Marketplace.emptyStore ⟨some "abc"⟩ =
      .valueError ("invalid literal for int() with base 10: " ++ "abc") := by
  exact ⟨get_current_user_subject_handling.2.2.2.2 SimpleApp.initStore "abc" (by decide),
    get_current_user_subject_handling.2.1 Marketplace.emptyStore "abc" (by decide)⟩

/-- C5: the two failing login paths of the Simple Service — unknown email,
and known email with a password that does not verify — return the identical
401 response with detail `Invalid email or password`, for every store, every
pair of attempts and every behaviour of the external password verifier. -/
theorem login_failures_indistinguishable :
    ∀ (verify : String → String → Bool) (s : SimpleApp.Store)
      (e1 p1 e2 p2 : String) (u : SimpleApp.User),
      SimpleApp.findUserByEmail s e1 = none →
      SimpleApp.findUserByEmail s e2 = some u →
      verify p2 u.passwordHash = false →
      SimpleApp.login verify s e1 p1 = SimpleApp.login verify s e2 p2 ∧
      SimpleApp.login verify s e1 p1 =
        .error ⟨401, "Invalid email or password"⟩ := by
  intro verify s e1 p1 e2 p2 u h1 h2 hv
  have q1 : SimpleApp.login verify s e1 p1 =
      .error ⟨401, "Invalid email or password"⟩ := by
    simp [SimpleApp.login, h1]
  have q2 : SimpleApp.login verify s e2 p2 =
      .error ⟨401, "Invalid email or password"⟩ := by
    simp [SimpleApp.login, h2, hv]
  exact ⟨q1.trans q2.symm, q1⟩

/-- Witness for C5: on the concrete fixture, logging in with an unregistered
email and logging in with the registered email but a wrong password yield the
same 401 response. -/
theorem login_failures_indistinguishable_witness :
    SimpleApp.login SimpleApp.demoVerify SimpleApp.c5Store "bob@example.com" "pw" =
      SimpleApp.login SimpleApp.demoVerify SimpleApp.c5Store "alice@example.com" "wrong" ∧
    SimpleApp.login SimpleApp.demoVerify SimpleApp.c5Store "bob@example.com" "pw" =
      .error ⟨401, "Invalid email or password"⟩ :=
  login_failures_indistinguishable SimpleApp.demoVerify SimpleApp.c5Store
    "bob@example.com" "pw" "alice@example.com" "wrong"
    ⟨1, "Alice", "alice@example.com", none, UserRole.customer, "hash-secret123"⟩
    (by decide) (by decide) (by decide)

/-- C6: the bootstrap endpoint creates the fixed admin exactly once — on the
empty deployment it creates `admin@rsa.com` with role admin, and any further
invocation fails 400 whichever admin account exists — but its success response
carries the framework-default status 200: the route decorator passes no
`status_code`, contradicting the 201 its own `responses` documentation and
the spec declare. -/
theorem setup_admin_succeeds_once_with_status_200 :
    SimpleApp.setup_admin SimpleApp.demoHash SimpleApp.initStore =
      .ok (SimpleApp.c6After, SimpleApp.c6Admin) ∧
    SimpleApp.c6Admin.email = "admin@rsa.com" ∧
    SimpleApp.c6Admin.role = UserRole.admin ∧
    SimpleApp.setup_admin_success_status = 200 ∧
    (SimpleApp.setup_admin_success_status == SimpleApp.setup_admin_documented_status)
      = false ∧
    SimpleApp.setup_admin SimpleApp.demoHash SimpleApp.c6After =
      .error ⟨400, "Admin user already exists. Use normal login."⟩ ∧
    SimpleApp.setup_admin SimpleApp.demoHash SimpleApp.c9Store =
      .error ⟨400, "Admin user already exists. Use normal login."⟩ := by
  refine ⟨rfl, rfl, rfl, rfl, by decide, rfl, rfl⟩

/-- Counterexample for C7: verifying the demo code for the fresh
ten-character phone `1234567890` with no name supplied creates a user named
`User 7890` — the f-string `User {phone[-4:]}` inserts a space — which
differs from the claim's `User` concatenated directly with the last four
digits. -/
theorem verify_otp_default_name_cex :
    Marketplace.verify_otp Marketplace.emptyStore "1234567890" "1234" none =
      .ok ⟨[⟨1, some "User 7890", "1234567890", UserRole.customer⟩], [], [], [], 2, 1⟩
        ⟨"1", "customer", "1234567890"⟩
        ⟨1, some "User 7890", "1234567890", UserRole.customer⟩ ∧
    "User 7890" ≠ "User" ++ "7890" := by
  refine ⟨rfl, by decide⟩

/-- C7 (amended): verifying a code different from the fixed demo code fails
400 and creates nothing.  Verifying the demo code for an unknown phone
inserts and commits a customer-role user whose name, when the caller supplies
none, is `User ` (with a space) followed by the last four characters of the
phone when the phone has at least four characters, and plain `User`
otherwise; the token response is then returned only when the phone has at
least ten characters — for a shorter phone the committed user remains while
the response serialization raises an uncaught `ValidationError` (500). -/
theorem verify_otp_correct :
    (∀ (s : Marketplace.Store) (phone otp : String) (name : Option String),
      otp ≠ Marketplace.DEMO_OTP →
      Marketplace.verify_otp s phone otp name = .httpError ⟨400, "Invalid OTP"⟩) ∧
    (∀ (s : Marketplace.Store) (phone : String),
      Marketplace.findUserByPhone s phone = none → 10 ≤ phone.length →
      ∃ s2 tok u, Marketplace.verify_otp s phone "1234" none = .ok s2 tok u ∧
        u.role = UserRole.customer ∧ u.phone = phone ∧
        u.name = some ("User " ++ pyLast4 phone) ∧
        s2.users = s.users ++ [u]) ∧
    (∀ (s : Marketplace.Store) (phone : String),
      Marketplace.findUserByPhone s phone = none → phone.length < 10 →
      ∃ s2 u, Marketplace.verify_otp s phone "1234" none =
          .validationError s2 "String should have at least 10 characters" ∧
        u.role = UserRole.customer ∧ u.phone = phone ∧
        u.name = some (if 4 ≤ phone.length then "User " ++ pyLast4 phone
          else "User") ∧
        s2.users = s.users ++ [u]) := by
  refine ⟨?_, ?_, ?_⟩
  · intro s phone otp name h
    simp [Marketplace.verify_otp, h]
  · intro s phone hfind hlen
    have h4 : 4 ≤ phone.length := by omega
    have hval : Marketplace.UserBase.validatesPhone phone = true := by
      simp [Marketplace.UserBase.validatesPhone, hlen]
    have hrun : Marketplace.verify_otp s phone "1234" none =
        .ok { s with
              users := s.users ++
                [⟨s.nextUserId, some ("User " ++ pyLast4 phone), phone,
                  UserRole.customer⟩]
              nextUserId := s.nextUserId + 1 }
          ⟨toString s.nextUserId, "customer", phone⟩
          ⟨s.nextUserId, some ("User " ++ pyLast4 phone), phone,
            UserRole.customer⟩ := by
      simp [Marketplace.verify_otp, Marketplace.DEMO_OTP, hfind,
        Marketplace.issueTokenResponse, hval, Marketplace.userNameFor, h4,
        UserRole.val]
    exact ⟨_, _, _, hrun, rfl, rfl, rfl, rfl⟩
  · intro s phone hfind hlen
    have hval : Marketplace.UserBase.validatesPhone phone = false := by
      simp [Marketplace.UserBase.validatesPhone]
      omega
    have hrun : Marketplace.verify_otp s phone "1234" none =
        .validationError
          { s with
            users := s.users ++
              [⟨s.nextUserId,
                some (if 4 ≤ phone.length then "User " ++ pyLast4 phone
                  else "User"), phone, UserRole.customer⟩]
            nextUserId := s.nextUserId + 1 }
          "String should have at least 10 characters" := by
      simp [Marketplace.verify_otp, Marketplace.DEMO_OTP, hfind,
        Marketplace.issueTokenResponse, hval, Marketplace.userNameFor]
    exact ⟨_, _, hrun, rfl, rfl, rfl, rfl⟩

/-- Witness for C7 (amended): a wrong code fails 400 on the concrete fixture;
the demo code on a fresh ten-character phone returns the token response; the
demo code on a two-character phone does not — the serialization crash fires
instead. -/
theorem verify_otp_correct_witness :
    Marketplace.verify_otp Marketplace.emptyStore "99" "9999" none =
      .httpError ⟨400, "Invalid OTP"⟩ ∧
    (Marketplace.verify_otp Marketplace.emptyStore "1234567890" "1234"
      none).isOk = true ∧
    (Marketplace.verify_otp Marketplace.emptyStore "77" "1234" none).isOk
      = false := by
  refine ⟨verify_otp_correct.1 Marketplace.emptyStore "99" "9999" none (by decide),
    ?_, ?_⟩
  · obtain ⟨s2, tok, u, hrun, -⟩ :=
      verify_otp_correct.2.1 Marketplace.emptyStore "1234567890"
        (by decide) (by decide)
    rw [hrun]
    rfl
  · obtain ⟨s2, u, hrun, -⟩ :=
      verify_otp_correct.2.2 Marketplace.emptyStore "77" (by decide) (by decide)
    rw [hrun]
    rfl

/-- Counterexample for C8: the phone `12345` has five characters, fails the
Marketplace `UserBase` minimum of ten, yet passes the `VerifyOTPInput`
validation (minimum one) that guards the exposed verify-otp operation — so it
is not rejected before handler logic runs; the handler inserts and commits a
user carrying that five-character phone and only then crashes serializing the
response, leaving the committed user behind: a Marketplace user created
through the exposed interface with a phone shorter than ten characters. -/
theorem short_phone_user_created_cex :
    Marketplace.UserBase.validatesPhone "12345" = false ∧
    Marketplace.VerifyOTPInput.validates "12345" = true ∧
    Marketplace.verify_otp_endpoint Marketplace.emptyStore "12345" "1234" none =
      .validationError
        ⟨[⟨1, some "User 2345", "12345", UserRole.customer⟩], [], [], [], 2, 1⟩
        "String should have at least 10 characters" := by
  refine ⟨by decide, by decide, rfl⟩

/-- C8 (amended): the `UserBase`/`UserRead` schema does declare a
ten-character phone minimum, but the bodies of the OTP operations are
validated only against their own schemas (`VerifyOTPInput`, minimum one
character), so a short phone is not rejected before handler logic runs: for
every unknown phone of length at least one, the exposed verify-otp operation
inserts and commits a user carrying exactly that phone; with at least ten
characters the token response is returned, and with fewer the committed user
remains while the response serialization raises an uncaught
`ValidationError` (500). -/
theorem verify_otp_phone_minlength :
    (∀ (phone : String),
      Marketplace.VerifyOTPInput.validates phone = true ↔ 1 ≤ phone.length) ∧
    (∀ (phone : String),
      Marketplace.UserBase.validatesPhone phone = true ↔ 10 ≤ phone.length) ∧
    (∀ (s : Marketplace.Store) (phone : String) (name : Option String),
      1 ≤ phone.length → Marketplace.findUserByPhone s phone = none →
      ∃ s2 u,
        (Marketplace.verify_otp_endpoint s phone "1234" name).store = some s2 ∧
        u ∈ s2.users ∧ u.phone = phone ∧
        (10 ≤ phone.length →
          (Marketplace.verify_otp_endpoint s phone "1234" name).isOk = true) ∧
        (phone.length < 10 →
          Marketplace.verify_otp_endpoint s phone "1234" name =
            .validationError s2 "String should have at least 10 characters")) := by
  refine ⟨?_, ?_, ?_⟩
  · intro phone
    simp [Marketplace.VerifyOTPInput.validates]
  · intro phone
    simp [Marketplace.UserBase.validatesPhone]
  · intro s phone name hlen hfind
    have hv : Marketplace.VerifyOTPInput.validates phone = true := by
      simp [Marketplace.VerifyOTPInput.validates, hlen]
    have hend : Marketplace.verify_otp_endpoint s phone "1234" name =
        Marketplace.verify_otp s phone "1234" name := by
      simp [Marketplace.verify_otp_endpoint, hv]
    rw [hend]
    by_cases h10 : 10 ≤ phone.length
    · have hval : Marketplace.UserBase.validatesPhone phone = true := by
        simp [Marketplace.UserBase.validatesPhone, h10]
      have hrun : Marketplace.verify_otp s phone "1234" name =
          .ok { s with
                users := s.users ++
                  [⟨s.nextUserId, some (Marketplace.userNameFor phone name),
                    phone, UserRole.customer⟩]
                nextUserId := s.nextUserId + 1 }
            ⟨toString s.nextUserId, "customer", phone⟩
            ⟨s.nextUserId, some (Marketplace.userNameFor phone name), phone,
              UserRole.customer⟩ := by
        simp [Marketplace.verify_otp, Marketplace.DEMO_OTP, hfind,
          Marketplace.issueTokenResponse, hval, UserRole.val]
      rw [hrun]
      refine ⟨_, ⟨s.nextUserId, some (Marketplace.userNameFor phone name), phone,
        UserRole.customer⟩, rfl, ?_, rfl, fun _ => rfl,
        fun hlt => absurd h10 (by omega)⟩
      simp
    · have hval : Marketplace.UserBase.validatesPhone phone = false := by
        simp [Marketplace.UserBase.validatesPhone]
        omega
      have hrun : Marketplace.verify_otp s phone "1234" name =
          .validationError
            { s with
              users := s.users ++
                [⟨s.nextUserId, some (Marketplace.userNameFor phone name),
                  phone, UserRole.customer⟩]
              nextUserId := s.nextUserId + 1 }
            "String should have at least 10 characters" := by
        simp [Marketplace.verify_otp, Marketplace.DEMO_OTP, hfind,
          Marketplace.issueTokenResponse, hval]
      rw [hrun]
      refine ⟨_, ⟨s.nextUserId, some (Marketplace.userNameFor phone name), phone,
        UserRole.customer⟩, rfl, ?_, rfl, fun hge => absurd hge h10,
        fun _ => rfl⟩
      simp

/-- Witness for C8 (amended): instantiated at the five-character phone
`12345` on the empty store — no token response, yet the store carries the
committed user. -/
theorem verify_otp_phone_minlength_witness :
    (Marketplace.verify_otp_endpoint Marketplace.emptyStore "12345" "1234"
      none).isOk = false ∧
    ((Marketplace.verify_otp_endpoint Marketplace.emptyStore "12345" "1234"
      none).store).isSome = true := by
  obtain ⟨s2, u, hstore, hmem, hphone, hok, hbad⟩ :=
    verify_otp_phone_minlength.2.2 Marketplace.emptyStore "12345" none
      (by decide) (by decide)
  constructor
  · rw [hbad (by decide)]
    rfl
  · rw [hstore]
    rfl


/-- C9: the Simple Service registration endpoint requires no authentication
and stores the requested role verbatim, so a caller can obtain an admin-role
account through it even though the fixture deployment already has an admin —
the bootstrap guard does not constrain this path. -/
theorem register_grants_admin_unauthenticated :
    (SimpleApp.findAdmin SimpleApp.c9Store).isSome = true ∧
    SimpleApp.register SimpleApp.demoHash SimpleApp.c9Store "Eve" "eve@example.com"
      none "secret123" UserRole.admin =
      .ok (⟨[⟨1, "Root", "root@example.com", none, UserRole.admin, "hash-rootpw"⟩,
             ⟨2, "Eve", "eve@example.com", none, UserRole.admin, "hash-secret123"⟩],
            [], 3, 1⟩,
        ⟨"2", "admin"⟩,
        ⟨2, "Eve", "eve@example.com", none, UserRole.admin, "hash-secret123"⟩) := by
  refine ⟨rfl, rfl⟩
